import Mathlib

/-!
Shallow embedding of the booking/reservation engine of the
FullStack_Storage_and_Booking_App repository.

The embedded code is `src/backend/src/services/booking.service.ts`
(createBooking, confirmBooking, rejectBooking, cancelBooking,
returnItems, checkAvailability) together with the standalone
availability calculator `calculateAvailableQuantity`
(`src/unnamed/part_000`).

Modelling conventions:
  * The Supabase/Postgres tables `storage_items`, `orders`,
    `order_items`, `user_profiles` become lists of records in a `DB`
    structure; every service method is a pure function
    `DB -> ... -> DB x Except Err _` making each sequential database
    mutation explicit (Supabase performs no client-side transaction,
    so each awaited call commits independently, exactly as modelled).
  * ISO date strings compared by PostgREST `lte`/`gte` are modelled as
    `Nat` day ordinals (lexicographic order on ISO dates is the
    numeric order on these ordinals).
  * `.single()` succeeds iff exactly one row matches; `.update().eq()`
    updates every matching row and does not fail on zero matches.
  * JS exceptions (`BadRequestException`, `ForbiddenException`) become
    `Except Err` results carrying the thrown message.
  * Exogenous storage failures that the source checks for
    (`itemInsertError` in createBooking's insert loop) are modelled by
    an explicit failure schedule argument; all other queries are
    modelled as succeeding at the storage level, so the remaining
    error paths are exactly the endogenous ones of the source.
-/

/-- Row of the `storage_items` table (fields used by the engine). -/
structure StorageItem where
  id : String
  items_number_total : Int
  items_number_available : Int
  location_id : String
deriving Repr, DecidableEq

/-- Row of the `orders` table (fields used by the engine). -/
structure OrderRow where
  id : String
  user_id : String
  status : String
  order_number : String
deriving Repr, DecidableEq

/-- Row of the `order_items` table: one line-item claim of a booking. -/
structure OrderItemRow where
  order_id : String
  item_id : String
  location_id : String
  quantity : Int
  start_date : Nat
  end_date : Nat
  total_days : Int
  status : String
deriving Repr, DecidableEq

/-- Row of the `user_profiles` table (fields used by the engine). -/
structure UserProfile where
  id : String
  role : String
deriving Repr, DecidableEq

/-- The database state seen by the booking service. -/
structure DB where
  user_profiles : List UserProfile
  storage_items : List StorageItem
  orders : List OrderRow
  order_items : List OrderItemRow
deriving Repr, DecidableEq

/-- Kind of exception thrown by the service. -/
inductive ErrKind where
  | badRequest
  | forbidden
deriving Repr, DecidableEq

/-- An exception thrown by the service: kind plus message. -/
structure Err where
  kind : ErrKind
  msg : String
deriving Repr, DecidableEq

/-- Supabase `.single()`: exactly one matching row, else an error
(modelled as `none`). -/
def single (l : List α) (p : α → Bool) : Option α :=
  match l.filter p with
  | [x] => some x
  | _ => none

/-- Sum of the `quantity` column, as the source's
`reduce((sum, o) => sum + (o.quantity ?? 0), 0)`. -/
def sumQuantities (l : List OrderItemRow) : Int :=
  (l.map (fun r => r.quantity)).foldl (· + ·) 0

/-- The closed-closed interval overlap predicate
`a.start <= b.end AND a.end >= b.start`. -/
def intervalsOverlap (aStart aEnd bStart bEnd : Nat) : Bool :=
  decide (aStart ≤ bEnd) && decide (aEnd ≥ bStart)

/-- Date filter of createBooking's overlap query
(`or(and(start_date.lte.{item.end_date},end_date.gte.{item.start_date}))`,
booking.service.ts line 188). -/
def createBookingOverlapCond (startDate endDate : Nat) (r : OrderItemRow) : Bool :=
  decide (r.start_date ≤ endDate) && decide (r.end_date ≥ startDate)

/-- Date filter of checkAvailability's overlap query
(`or(and(start_date.lte.{endDate},end_date.gte.{startDate}))`,
booking.service.ts line 600). -/
def checkAvailabilityOverlapCond (startDate endDate : Nat) (r : OrderItemRow) : Bool :=
  decide (r.start_date ≤ endDate) && decide (r.end_date ≥ startDate)

/-- Date filter of calculateAvailableQuantity's overlap query
(`or(and(start_date.lte.{endDate},end_date.gte.{startDate}))`,
src/unnamed/part_000 line 15). -/
def calcOverlapCond (startDate endDate : Nat) (r : OrderItemRow) : Bool :=
  decide (r.start_date ≤ endDate) && decide (r.end_date ≥ startDate)

/-- calculateAvailableQuantity (src/unnamed/part_000): overlapping
order_items for the item, restricted to status pending or confirmed,
summed; result is `items_number_total - booked`. -/
def calculateAvailableQuantity (db : DB) (itemId : String) (startDate endDate : Nat) :
    Except String Int :=
  let overlapping := db.order_items.filter (fun r =>
    r.item_id == itemId &&
    (r.status == "pending" || r.status == "confirmed") &&
    calcOverlapCond startDate endDate r)
  let booked := sumQuantities overlapping
  match single db.storage_items (fun it => it.id == itemId) with
  | none => Except.error "Error when retrieving/ calling item.total"
  | some item => Except.ok (item.items_number_total - booked)

/-- One requested line item of a createBooking call
(`dto.items` entry). -/
structure BookingItemDto where
  item_id : String
  quantity : Int
  start_date : Nat
  end_date : Nat
deriving Repr, DecidableEq

/-- The CreateBookingDto: requesting user plus line items. -/
structure CreateBookingDto where
  user_id : String
  items : List BookingItemDto
deriving Repr, DecidableEq

/-- The overlap sum computed in createBooking's validation loop
(booking.service.ts lines 184-198): all order_items of the item whose
dates overlap the request — note: no status filter. -/
def createBookingAlreadyBooked (db : DB) (itemId : String) (startDate endDate : Nat) : Int :=
  sumQuantities (db.order_items.filter (fun r =>
    r.item_id == itemId && createBookingOverlapCond startDate endDate r))

/-- Availability validation of one requested line item
(booking.service.ts lines 179-217): overlap sum, fetch
`items_number_total`, reject when `booked + quantity > total`. -/
def checkItemAvailability (db : DB) (it : BookingItemDto) : Except Err Unit :=
  let alreadyBookedQuantity := createBookingAlreadyBooked db it.item_id it.start_date it.end_date
  match single db.storage_items (fun s => s.id == it.item_id) with
  | none => Except.error ⟨ErrKind.badRequest, "Item data not found"⟩
  | some itemData =>
    if alreadyBookedQuantity + it.quantity > itemData.items_number_total then
      Except.error ⟨ErrKind.badRequest,
        "Not enough quantity available for item " ++ it.item_id⟩
    else
      Except.ok ()

/-- The validation loop of createBooking over all requested items;
the first failing item's exception propagates. -/
def validateItems (db : DB) : List BookingItemDto → Except Err Unit
  | [] => Except.ok ()
  | it :: rest =>
    match checkItemAvailability db it with
    | Except.error e => Except.error e
    | Except.ok _ => validateItems db rest

/-- Left-pad a numeral with zeros to 4 digits
(`padStart(4, "0")`). -/
def pad4 (n : Nat) : String :=
  let s := toString n
  if s.length ≥ 4 then s else String.mk (List.replicate (4 - s.length) '0') ++ s

/-- generateOrderNumber (booking.service.ts lines 220-227):
`ORD-` ++ date component ++ `-` ++ 4-digit random part; the date and
the drawn random number are parameters of the embedding. -/
def generateOrderNumber (datePart : String) (randomPart : Nat) : String :=
  "ORD-" ++ datePart ++ "-" ++ pad4 (randomPart % 10000)

/-- The per-item insert loop of createBooking
(booking.service.ts lines 249-287): fetch `location_id`, compute
`total_days`, insert the order_items row; each successful insert
commits immediately (no transaction).  `failAt k` injects the
storage-level `itemInsertError` the source checks for on the k-th
insert; on any error the loop throws, keeping every earlier insert. -/
def insertItemsLoop (db : DB) (orderId : String) (items : List BookingItemDto)
    (failAt : Nat → Bool) (k : Nat) : DB × Except Err Unit :=
  match items with
  | [] => (db, Except.ok ())
  | it :: rest =>
    match single db.storage_items (fun s => s.id == it.item_id) with
    | none =>
      (db, Except.error ⟨ErrKind.badRequest,
        "Could not fetch location_id for item " ++ it.item_id⟩)
    | some storageItem =>
      if failAt k then
        (db, Except.error ⟨ErrKind.badRequest, "Could not create order items"⟩)
      else
        insertItemsLoop
          { db with order_items := db.order_items ++
              [{ order_id := orderId
                 item_id := it.item_id
                 location_id := storageItem.location_id
                 quantity := it.quantity
                 start_date := it.start_date
                 end_date := it.end_date
                 total_days := (it.end_date : Int) - (it.start_date : Int)
                 status := "pending" }] }
          orderId rest failAt (k + 1)

/-- createBooking (booking.service.ts lines 157-290).  Parameters
beyond the dto: the date component and random draw of the order
number, the fresh row id the store assigns, and the injected
insert-failure schedule.  The row insert of `orders` enforces the
unique constraint on `order_number`.

Modelled from the spec: the uniqueness constraint on the booking
number lives in the database schema, which is not among the source
files; per the spec, `booking_number` is "unique, ... collision must
be detected", so an insert with an already-present order_number
fails, which the source surfaces as "Could not create order". -/
def createBooking (db : DB) (dto : CreateBookingDto) (datePart : String)
    (randomPart : Nat) (newOrderId : String) (failAt : Nat → Bool) :
    DB × Except Err OrderRow :=
  if dto.user_id == "" then
    (db, Except.error ⟨ErrKind.badRequest, "No userId found: user_id is required"⟩)
  else
    match single db.user_profiles (fun u => u.id == dto.user_id) with
    | none => (db, Except.error ⟨ErrKind.badRequest, "User not found"⟩)
    | some user =>
      match validateItems db dto.items with
      | Except.error e => (db, Except.error e)
      | Except.ok _ =>
        let orderNumber := generateOrderNumber datePart randomPart
        if db.orders.any (fun o => o.order_number == orderNumber) then
          (db, Except.error ⟨ErrKind.badRequest, "Could not create order"⟩)
        else
          let order : OrderRow :=
            { id := newOrderId
              user_id := user.id
              status := "pending"
              order_number := orderNumber }
          let db1 := { db with orders := db.orders ++ [order] }
          match insertItemsLoop db1 order.id dto.items failAt 0 with
          | (db2, Except.ok _) => (db2, Except.ok order)
          | (db2, Except.error e) => (db2, Except.error e)

/-- Update of `storage_items.items_number_available` via
`.update(...).eq("id", itemId)`: every matching row gets the value. -/
def setAvailable (db : DB) (itemId : String) (newVal : Int) : DB :=
  { db with storage_items := db.storage_items.map (fun s =>
      if s.id == itemId then { s with items_number_available := newVal } else s) }

/-- The per-item loop of confirmBooking (booking.service.ts lines
307-340): fetch the item's cached `items_number_available`, throw when
it is below the line item's quantity, otherwise write back
`available - quantity`.  Returns the database after the writes
performed so far, the list of (item_id, value) pairs written to
`items_number_available`, and the outcome. -/
def confirmLoop (db : DB) : List OrderItemRow → DB × List (String × Int) × Except Err Unit
  | [] => (db, [], Except.ok ())
  | item :: rest =>
    match single db.storage_items (fun s => s.id == item.item_id) with
    | none =>
      (db, [], Except.error ⟨ErrKind.badRequest, "Could not fetch storage item details"⟩)
    | some storageItem =>
      if storageItem.items_number_available < item.quantity then
        (db, [], Except.error ⟨ErrKind.badRequest,
          "Not enough available quantity for item " ++ item.item_id⟩)
      else
        let newVal := storageItem.items_number_available - item.quantity
        let r := confirmLoop (setAvailable db item.item_id newVal) rest
        (r.1, (item.item_id, newVal) :: r.2.1, r.2.2)

/-- confirmBooking (booking.service.ts lines 293-363): load the
booking's order_items, run the per-item cached-count check/decrement
loop, then set the order's status and its order_items' status to
`confirmed`.  The userId argument is used by the source only to
obtain a client.  Also returns the list of values written to
`items_number_available`. -/
def confirmBooking (db : DB) (orderId : String) (userId : String) :
    DB × List (String × Int) × Except Err String :=
  let items := db.order_items.filter (fun r => r.order_id == orderId)
  let r := confirmLoop db items
  match r.2.2 with
  | Except.error e => (r.1, r.2.1, Except.error e)
  | Except.ok _ =>
    let db2 : DB := { r.1 with orders := r.1.orders.map (fun (o : OrderRow) =>
        if o.id == orderId then { o with status := "confirmed" } else o) }
    let db3 : DB := { db2 with order_items := db2.order_items.map (fun (ri : OrderItemRow) =>
        if ri.order_id == orderId then { ri with status := "confirmed" } else ri) }
    (db3, r.2.1, Except.ok "Booking confirmed")

/-- rejectBooking (booking.service.ts lines 440-463): only
admin/superVera may reject; the status update
`.update(status := rejected).eq("id", orderId)` carries no guard on
the current status. -/
def rejectBooking (db : DB) (orderId : String) (userId : String) :
    DB × Except Err String :=
  match single db.user_profiles (fun u => u.id == userId) with
  | none => (db, Except.error ⟨ErrKind.forbidden, "Only admins can reject bookings"⟩)
  | some user =>
    if user.role != "admin" && user.role != "superVera" then
      (db, Except.error ⟨ErrKind.forbidden, "Only admins can reject bookings"⟩)
    else
      ({ db with orders := db.orders.map (fun o =>
          if o.id == orderId then { o with status := "rejected" } else o) },
       Except.ok "Booking rejected")

/-- Result row of cancelBooking's order query
(booking.service.ts lines 469-476): the query is
`.select("user_id")...single<{user_id: string; status: string}>()` —
the declared row type lists a status field, but the select fetches
only the user_id column, so at runtime `order.status` is undefined,
modelled as `none`. -/
structure CancelFetchedOrder where
  user_id : String
  status : Option String
deriving Repr, DecidableEq

/-- Projection the cancelBooking order query actually performs:
only `user_id` is selected; `status` is absent. -/
def cancelFetchProjection (o : OrderRow) : CancelFetchedOrder :=
  { user_id := o.user_id, status := none }

/-- cancelBooking (booking.service.ts lines 466-517): admins may
always cancel (status becomes `cancelled by admin`); a non-admin must
own the booking and is blocked when the fetched `order.status` equals
`confirmed` — which, the fetched status being undefined, never
happens; otherwise status becomes `cancelled by user`. -/
def cancelBooking (db : DB) (orderId : String) (userId : String) :
    DB × Except Err String :=
  match single db.orders (fun o => o.id == orderId) with
  | none => (db, Except.error ⟨ErrKind.badRequest, "Order not found"⟩)
  | some orderRow =>
    let order := cancelFetchProjection orderRow
    match single db.user_profiles (fun u => u.id == userId) with
    | none => (db, Except.error ⟨ErrKind.badRequest, "User profile not found"⟩)
    | some userProfile =>
      let isAdmin := userProfile.role == "admin" || userProfile.role == "superVera"
      let isOwner := order.user_id == userId
      if !isAdmin && !isOwner then
        (db, Except.error ⟨ErrKind.forbidden, "You can only cancel your own bookings"⟩)
      else if !isAdmin && order.status == some "confirmed" then
        (db, Except.error ⟨ErrKind.forbidden,
          "You can\x27t cancel a booking that has already been confirmed"⟩)
      else
        let newStatus := if isAdmin then "cancelled by admin" else "cancelled by user"
        ({ db with orders := db.orders.map (fun o =>
            if o.id == orderId then { o with status := newStatus } else o) },
         Except.ok ("Booking cancelled by " ++ (if isAdmin then "admin" else "user")))

/-- Modelled from the spec: the body of the database function
`increment_item_quantity` invoked by `supabase.rpc` in returnItems is
not among the source files; per the spec, returnItems "for each line
item, restores Item capacity", so the rpc adds the given quantity to
the item's cached available count. -/
def increment_item_quantity (db : DB) (itemId : String) (q : Int) : DB :=
  { db with storage_items := db.storage_items.map (fun s =>
      if s.id == itemId then
        { s with items_number_available := s.items_number_available + q }
      else s) }

/-- returnItems (booking.service.ts lines 564-584): load the
booking's order_items (error when none), then call
`increment_item_quantity` for each; the userId argument is used by
the source only to obtain a client — no role or ownership check is
performed. -/
def returnItems (db : DB) (orderId : String) (userId : String) :
    DB × Except Err String :=
  let items := db.order_items.filter (fun r => r.order_id == orderId)
  if items.isEmpty then
    (db, Except.error ⟨ErrKind.badRequest, "No items found for return"⟩)
  else
    (items.foldl (fun acc it => increment_item_quantity acc it.item_id it.quantity) db,
     Except.ok "Items returned successfully")

/-- Return shape of checkAvailability. -/
structure AvailabilityInfo where
  item_id : String
  availableQuantity : Int
  alreadyBookedQuantity : Int
  totalQuantity : Int
  startDate : Nat
  endDate : Nat
deriving Repr, DecidableEq

/-- The overlap sum of checkAvailability (booking.service.ts lines
596-608): all order_items of the item whose dates overlap the range —
note: no status filter. -/
def checkAvailabilityBooked (db : DB) (itemId : String) (startDate endDate : Nat) : Int :=
  sumQuantities (db.order_items.filter (fun r =>
    r.item_id == itemId && checkAvailabilityOverlapCond startDate endDate r))

/-- checkAvailability (booking.service.ts lines 587-632): overlap sum
over order_items, `items_number_total` from storage_items, result
`total - alreadyBooked`. -/
def checkAvailability (db : DB) (itemId : String) (startDate endDate : Nat) :
    Except Err AvailabilityInfo :=
  let alreadyBookedQuantity := checkAvailabilityBooked db itemId startDate endDate
  match single db.storage_items (fun it => it.id == itemId) with
  | none => Except.error ⟨ErrKind.badRequest, "Item data not found"⟩
  | some itemData =>
    Except.ok
      { item_id := itemId
        availableQuantity := itemData.items_number_total - alreadyBookedQuantity
        alreadyBookedQuantity := alreadyBookedQuantity
        totalQuantity := itemData.items_number_total
        startDate := startDate
        endDate := endDate }

/-- Ledger overlap sum as the spec words it (section 4.1/4.2): sum of
quantities of the claims of the item whose status lies in
the set of pending and confirmed and whose closed interval overlaps the query
interval. -/
def specLedgerSumOverlapping (db : DB) (itemId : String) (startDate endDate : Nat) : Int :=
  sumQuantities (db.order_items.filter (fun r =>
    r.item_id == itemId &&
    (r.status == "pending" || r.status == "confirmed") &&
    intervalsOverlap r.start_date r.end_date startDate endDate))

/-- Failure schedule injecting no storage-level failures. -/
def noFail : Nat → Bool := fun _ => false

/-- Fixture: item A has total capacity 1 with a stale cached available
count of 1, while the ledger already holds a confirmed claim of 1 for
[10,20] in addition to booking O1's own pending claim of 1 for
[12,18]. -/
def dbC1 : DB :=
  { user_profiles := [⟨"u1", "user"⟩, ⟨"u2", "user"⟩]
    storage_items := [⟨"A", 1, 1, "L"⟩]
    orders := [⟨"O1", "u1", "pending", "N1"⟩, ⟨"O2", "u2", "confirmed", "N2"⟩]
    order_items := [⟨"O2", "A", "L", 1, 10, 20, 10, "confirmed"⟩,
                    ⟨"O1", "A", "L", 1, 12, 18, 6, "pending"⟩] }

/-- C1: confirmBooking confirms booking O1 although the authoritative
ledger overlap sum says item A has availability -1 over the line
item's own range [12,18] — the cached `items_number_available` count
(still 1) is the sole gate, and no overlap-sum query over order_items
is made at confirmation time. -/
theorem confirmBooking_cached_gate_cex :
    (confirmBooking dbC1 "O1" "u1").2.2 = Except.ok "Booking confirmed" ∧
    calculateAvailableQuantity dbC1 "A" 12 18 = Except.ok (-1) := by
  exact ⟨rfl, rfl⟩

/-- Fixture: a valid two-line-item request against an item with ample
capacity; the storage layer fails on the second order_items insert. -/
def dbC2 : DB :=
  { user_profiles := [⟨"u1", "user"⟩]
    storage_items := [⟨"A", 5, 5, "L"⟩]
    orders := []
    order_items := [] }

/-- The request of the dbC2 scenario: two line items of quantity 1. -/
def dtoC2 : CreateBookingDto := ⟨"u1", [⟨"A", 1, 10, 12⟩, ⟨"A", 1, 10, 12⟩]⟩

/-- C2: when the second line-item insert fails, createBooking throws
"Could not create order items" but the already-inserted booking row
and the first line-item claim remain persisted — the operation is not
all-or-nothing. -/
theorem createBooking_leftover_rows_cex :
    (createBooking dbC2 dtoC2 "20240101" 7 "NEW" (fun k => k == 1)).2 =
      Except.error ⟨ErrKind.badRequest, "Could not create order items"⟩ ∧
    (createBooking dbC2 dtoC2 "20240101" 7 "NEW" (fun k => k == 1)).1.orders =
      [⟨"NEW", "u1", "pending", "ORD-20240101-0007"⟩] ∧
    (createBooking dbC2 dtoC2 "20240101" 7 "NEW" (fun k => k == 1)).1.order_items =
      [⟨"NEW", "A", "L", 1, 10, 12, 2, "pending"⟩] := by
  exact ⟨rfl, rfl, rfl⟩

/-- Fixture: booking O1 has two pending line items; item A has cached
availability 5 for quantity 2, item B has cached availability 0 for
quantity 1, so the confirmation of O1 must fail on B. -/
def dbC3 : DB :=
  { user_profiles := [⟨"u1", "user"⟩, ⟨"a1", "admin"⟩]
    storage_items := [⟨"A", 5, 5, "L"⟩, ⟨"B", 5, 0, "L"⟩]
    orders := [⟨"O1", "u1", "pending", "N1"⟩]
    order_items := [⟨"O1", "A", "L", 2, 10, 20, 10, "pending"⟩,
                    ⟨"O1", "B", "L", 1, 10, 20, 10, "pending"⟩] }

/-- C3: the confirmation of O1 fails on item B, the booking stays
pending and no line-item status changes, but item A's cached
available count has already been decremented from 5 to 3 and is not
restored — the failed confirmation is not atomic. -/
theorem confirmBooking_leftover_decrement_cex :
    (confirmBooking dbC3 "O1" "a1").2.2 =
      Except.error ⟨ErrKind.badRequest, "Not enough available quantity for item B"⟩ ∧
    single dbC3.storage_items (fun s => s.id == "A") = some ⟨"A", 5, 5, "L"⟩ ∧
    single (confirmBooking dbC3 "O1" "a1").1.storage_items (fun s => s.id == "A") =
      some ⟨"A", 5, 3, "L"⟩ ∧
    (confirmBooking dbC3 "O1" "a1").1.orders = dbC3.orders ∧
    (confirmBooking dbC3 "O1" "a1").1.order_items = dbC3.order_items := by
  exact ⟨rfl, rfl, rfl, rfl, rfl⟩

/-- C4: the three overlap queries of the engine — createBooking's
validation query, checkAvailability's query, and
calculateAvailableQuantity's query — all use the single inclusive
closed-interval predicate (row.start <= query.end AND
row.end >= query.start); the predicate is symmetric, and the ranges
[2024-01-01, 2024-01-05] and [2024-01-05, 2024-01-10], sharing only a
boundary day, do overlap. -/
theorem overlap_predicate_uniform_inclusive_symmetric :
    (∀ (qs qe : Nat) (r : OrderItemRow),
        createBookingOverlapCond qs qe r = intervalsOverlap r.start_date r.end_date qs qe) ∧
    (∀ (qs qe : Nat) (r : OrderItemRow),
        checkAvailabilityOverlapCond qs qe r = intervalsOverlap r.start_date r.end_date qs qe) ∧
    (∀ (qs qe : Nat) (r : OrderItemRow),
        calcOverlapCond qs qe r = intervalsOverlap r.start_date r.end_date qs qe) ∧
    (∀ aS aE bS bE : Nat,
        intervalsOverlap aS aE bS bE = intervalsOverlap bS bE aS aE) ∧
    intervalsOverlap 20240101 20240105 20240105 20240110 = true := by
  refine ⟨fun qs qe r => rfl, fun qs qe r => rfl, fun qs qe r => rfl, ?_, by decide⟩
  intro aS aE bS bE
  show (decide (aS ≤ bE) && decide (aE ≥ bS)) = (decide (bS ≤ aE) && decide (bE ≥ aS))
  rw [show decide (aE ≥ bS) = decide (bS ≤ aE) from rfl,
      show decide (bE ≥ aS) = decide (aS ≤ bE) from rfl]
  exact Bool.and_comm _ _

/-- Fixture: item A has total capacity 5 and an empty active ledger —
its only claim, of quantity 5 over [10,20], belongs to a booking
cancelled by its user. -/
def dbC5 : DB :=
  { user_profiles := [⟨"u1", "user"⟩]
    storage_items := [⟨"A", 5, 5, "L"⟩]
    orders := [⟨"O9", "u2", "cancelled by user", "N9"⟩]
    order_items := [⟨"O9", "A", "L", 5, 10, 20, 10, "cancelled by user"⟩] }

/-- The request of the dbC5 scenario: one unit of A over [12,14]. -/
def dtoC5 : CreateBookingDto := ⟨"u1", [⟨"A", 1, 12, 14⟩]⟩

/-- C5: a line item in the terminal status `cancelled by user` still
counts in the overlap sums of createBooking and checkAvailability:
the request for 1 of 5 units is rejected and checkAvailability
reports 0 available, although the status-filtered availability
calculator correctly reports 5. -/
theorem terminal_status_counted_cex :
    createBooking dbC5 dtoC5 "20240101" 7 "NEW" noFail =
      (dbC5, Except.error ⟨ErrKind.badRequest, "Not enough quantity available for item A"⟩) ∧
    checkAvailability dbC5 "A" 12 14 = Except.ok ⟨"A", 0, 5, 5, 12, 14⟩ ∧
    calculateAvailableQuantity dbC5 "A" 12 14 = Except.ok 5 := by
  exact ⟨rfl, rfl, rfl⟩

/-- Fixture: booking O1 of user u1 is in status `confirmed`; u1 is a
plain user (not admin, not superVera). -/
def dbC6 : DB :=
  { user_profiles := [⟨"u1", "user"⟩]
    storage_items := []
    orders := [⟨"O1", "u1", "confirmed", "N1"⟩]
    order_items := [] }

/-- C6: the owner, a plain user, cancels their own `confirmed`
booking and succeeds — the guard against cancelling a confirmed
booking compares the unfetched (hence absent) status column with
`confirmed` and so never fires. -/
theorem cancelBooking_owner_confirmed_cex :
    dbC6.orders = [⟨"O1", "u1", "confirmed", "N1"⟩] ∧
    (cancelBooking dbC6 "O1" "u1").2 = Except.ok "Booking cancelled by user" ∧
    (cancelBooking dbC6 "O1" "u1").1.orders = [⟨"O1", "u1", "cancelled by user", "N1"⟩] := by
  exact ⟨rfl, rfl, rfl⟩

/-- Fixture: storage item A has cached availability 3; booking O1 of
user u2 holds one pending line item of quantity 2; u1 is a plain user
unrelated to the booking. -/
def dbC9 : DB :=
  { user_profiles := [⟨"u1", "user"⟩, ⟨"u2", "user"⟩]
    storage_items := [⟨"A", 5, 3, "L"⟩]
    orders := [⟨"O1", "u2", "pending", "N1"⟩]
    order_items := [⟨"O1", "A", "L", 2, 10, 20, 10, "pending"⟩] }

/-- C9: returnItems performs no authorization check: invoked by the
plain user u1, who neither has an administrative role nor owns
booking O1, it succeeds and restores item A's capacity from 3 to 5. -/
theorem returnItems_no_auth_cex :
    single dbC9.user_profiles (fun u => u.id == "u1") = some ⟨"u1", "user"⟩ ∧
    dbC9.orders = [⟨"O1", "u2", "pending", "N1"⟩] ∧
    (returnItems dbC9 "O1" "u1").2 = Except.ok "Items returned successfully" ∧
    single (returnItems dbC9 "O1" "u1").1.storage_items (fun s => s.id == "A") =
      some ⟨"A", 5, 5, "L"⟩ := by
  exact ⟨rfl, rfl, rfl, rfl⟩

/-- Fixture: booking O1 is in the terminal status `deleted`; a1 is an
admin. -/
def dbC7 : DB :=
  { user_profiles := [⟨"a1", "admin"⟩]
    storage_items := []
    orders := [⟨"O1", "u1", "deleted", "N1"⟩]
    order_items := [] }

/-- C7 counterexample: rejectBooking applied by an admin to booking
O1, already in the terminal status `deleted`, succeeds and changes
the status to `rejected` — terminal states are not terminal and
rejectBooking does not only move pending bookings. -/
theorem rejectBooking_terminal_state_cex :
    dbC7.orders = [⟨"O1", "u1", "deleted", "N1"⟩] ∧
    (rejectBooking dbC7 "O1" "a1").2 = Except.ok "Booking rejected" ∧
    (rejectBooking dbC7 "O1" "a1").1.orders = [⟨"O1", "u1", "rejected", "N1"⟩] := by
  exact ⟨rfl, rfl, rfl⟩

/-- C7 as amended: rejectBooking guards only on the actor's role, not
on the current status: an admin or superVera actor sets the status of
every matching booking to `rejected` whatever its current status; any
other actor gets Forbidden and the database is unchanged. -/
theorem rejectBooking_amended :
    (∀ (db : DB) (orderId userId : String) (u : UserProfile),
        single db.user_profiles (fun x => x.id == userId) = some u →
        (u.role == "admin" || u.role == "superVera") = true →
        rejectBooking db orderId userId =
          ({ db with orders := db.orders.map (fun o =>
              if o.id == orderId then { o with status := "rejected" } else o) },
           Except.ok "Booking rejected")) ∧
    (∀ (db : DB) (orderId userId : String) (u : UserProfile),
        single db.user_profiles (fun x => x.id == userId) = some u →
        (u.role == "admin" || u.role == "superVera") = false →
        rejectBooking db orderId userId =
          (db, Except.error ⟨ErrKind.forbidden, "Only admins can reject bookings"⟩)) := by
  constructor
  · intro db orderId userId u h1 h2
    simp only [rejectBooking, h1, bne]
    simp only [← Bool.not_or, h2]
    simp
  · intro db orderId userId u h1 h2
    simp only [rejectBooking, h1, bne]
    simp only [← Bool.not_or, h2]
    simp

/-- C7 witness: the amended statement applied to the dbC7 fixture. -/
theorem rejectBooking_amended_witness :
    rejectBooking dbC7 "O1" "a1" =
      ({ dbC7 with orders := dbC7.orders.map (fun o =>
          if o.id == "O1" then { o with status := "rejected" } else o) },
       Except.ok "Booking rejected") :=
  rejectBooking_amended.1 dbC7 "O1" "a1" ⟨"a1", "admin"⟩ (by rfl) (by rfl)

/-- Fixture: a valid one-item request, but an order with the number
the generator will produce for random draw 7 already exists. -/
def dbC8 : DB :=
  { user_profiles := [⟨"u1", "user"⟩]
    storage_items := [⟨"A", 5, 5, "L"⟩]
    orders := [⟨"OLD", "u1", "pending", "ORD-20240101-0007"⟩]
    order_items := [] }

/-- The request of the dbC8 scenario. -/
def dtoC8 : CreateBookingDto := ⟨"u1", [⟨"A", 1, 10, 12⟩]⟩

/-- C8 counterexample: with random draw 7 the generated booking
number collides with the existing order and createBooking fails at
once with the BadRequest error `Could not create order` — no retry
with a new disambiguator happens, although the very same call with
draw 8 succeeds. -/
theorem orderNumber_collision_no_retry_cex :
    createBooking dbC8 dtoC8 "20240101" 7 "NEW" noFail =
      (dbC8, Except.error ⟨ErrKind.badRequest, "Could not create order"⟩) ∧
    (createBooking dbC8 dtoC8 "20240101" 8 "NEW" noFail).2 =
      Except.ok ⟨"NEW", "u1", "pending", "ORD-20240101-0008"⟩ := by
  exact ⟨rfl, rfl⟩

/-- C8 as amended: a booking-number uniqueness collision is detected
— the order insert fails — and createBooking then fails immediately
with the BadRequest error `Could not create order`, leaving the
database unchanged; no retry with a new random disambiguator is
attempted. -/
theorem orderNumber_collision_fails_immediately
    (db : DB) (dto : CreateBookingDto) (datePart : String) (randomPart : Nat)
    (newOrderId : String) (failAt : Nat → Bool) (u : UserProfile)
    (h0 : (dto.user_id == "") = false)
    (h1 : single db.user_profiles (fun x => x.id == dto.user_id) = some u)
    (h2 : validateItems db dto.items = Except.ok ())
    (h3 : db.orders.any
      (fun o => o.order_number == generateOrderNumber datePart randomPart) = true) :
    createBooking db dto datePart randomPart newOrderId failAt =
      (db, Except.error ⟨ErrKind.badRequest, "Could not create order"⟩) := by
  simp only [createBooking, h0, h1, h2, h3]
  simp

/-- C8 witness: the amended statement applied to the dbC8 fixture. -/
theorem orderNumber_collision_fails_immediately_witness :
    createBooking dbC8 dtoC8 "20240101" 7 "NEW" noFail =
      (dbC8, Except.error ⟨ErrKind.badRequest, "Could not create order"⟩) :=
  orderNumber_collision_fails_immediately dbC8 dtoC8 "20240101" 7 "NEW" noFail
    ⟨"u1", "user"⟩ (by rfl) (by rfl) (by rfl) (by rfl)

/-- Every (item_id, value) pair written to `items_number_available`
by the confirmation loop is non-negative: the loop writes
`available - quantity` only under the guard
`available < quantity` being false. -/
theorem confirmLoop_writes_nonneg (items : List OrderItemRow) :
    ∀ (db : DB) (p : String × Int), p ∈ (confirmLoop db items).2.1 → 0 ≤ p.2 := by
  induction items with
  | nil =>
    intro db p hp
    simp [confirmLoop] at hp
  | cons item rest ih =>
    intro db p hp
    unfold confirmLoop at hp
    cases hs : single db.storage_items (fun s => s.id == item.item_id) with
    | none =>
      rw [hs] at hp
      simp at hp
    | some storageItem =>
      rw [hs] at hp
      by_cases hlt : storageItem.items_number_available < item.quantity
      · simp [hlt] at hp
      · simp only [if_neg hlt, List.mem_cons] at hp
        rcases hp with h | h
        · rw [h]
          simp
          omega
        · exact ih _ p h

/-- C10: no decrement of the cached `items_number_available` count
performed by confirmBooking ever writes a negative value: each
write is guarded by the check that the current available count is at
least the line item's quantity. -/
theorem confirmBooking_writes_nonneg (db : DB) (orderId userId : String)
    (p : String × Int) (hp : p ∈ (confirmBooking db orderId userId).2.1) : 0 ≤ p.2 := by
  apply confirmLoop_writes_nonneg
    (db.order_items.filter (fun r => r.order_id == orderId)) db p
  simp only [confirmBooking] at hp
  cases ho : (confirmLoop db (db.order_items.filter (fun r => r.order_id == orderId))).2.2 with
  | error e => rw [ho] at hp; simpa using hp
  | ok v => rw [ho] at hp; simpa using hp

/-- Fixture: booking O1 has one pending line item of quantity 2 on
item A, whose cached available count is 5. -/
def dbC10 : DB :=
  { user_profiles := [⟨"a1", "admin"⟩]
    storage_items := [⟨"A", 5, 5, "L"⟩]
    orders := [⟨"O1", "u1", "pending", "N1"⟩]
    order_items := [⟨"O1", "A", "L", 2, 10, 20, 10, "pending"⟩] }

/-- C10 witness: confirming O1 in the dbC10 fixture writes the pair
(A, 3), which is non-negative by the theorem. -/
theorem confirmBooking_writes_nonneg_witness : 0 ≤ (("A", (3 : Int))).2 :=
  confirmBooking_writes_nonneg dbC10 "O1" "a1" ("A", 3) (by decide)
